import Mathlib

/-!
Shallow embedding of the offline-sync subsystem of the to-do application:
the client storage layer (`StorageService`, file
src/client/src/services/storageService.js, first document), the synchronizer
(`SyncService`, same file, second document), the HTTP client
(src/client/src/services/apiService.js with the task endpoints of
src/unnamed/part_004, `TaskService`), and the server task routes
(src/server/src/routes/tasks.js).

Modelling conventions:
- JS timestamps (`Date.now()`, ISO strings compared through `new Date`) are
  naturals; `Math.random()` suffixes are explicit string arguments.
- An IndexedDB object store is a key-ordered map with at most one record per
  key.  The `sync_queue` store is kept as a list sorted by its string key,
  because `getAll()` returns records in ascending key order and the claims
  observe that order.  The `tasks` store is kept in arrival order, since no
  claim observes the order of `getTasks` (only membership and lookup by id);
  `put` replaces the single record carrying the key or adds the record.
- Network effects are explicit: gateway calls return `Except` and the drain
  counts how many gateway dispatches it performed.
- HTTP responses are modelled as the parsed bodies the routes actually
  send: the `{success, task}` and `{success, tasks, pagination}` envelopes.
  The client code consumes them as if they were bare tasks or arrays, so
  the member accesses that fail on the wrong shape (a keyed put without
  the key, array methods on an object) are explicit error paths.
- The `dispatch` notifications pushed to the React state sink are not
  represented; no claim examined here observes them.
-/

namespace TodoSync

/-- Task record as stored client-side (IndexedDB `tasks` store, keyPath `_id`)
and server-side (Mongo collection behind src/server/src/routes/tasks.js).
The user-editable payload is reduced to `title` and `completed`; the other
payload fields (description, priority, ...) play no role in any claim and
would be carried around unchanged exactly like `title`. -/
structure Task where
  _id : String
  userId : String
  title : String
  completed : Bool
  createdAt : Nat
  updatedAt : Nat
  isOffline : Bool
deriving DecidableEq, Repr

/-- Mutation payload (the `taskData` of createOfflineTask, the `updates` of
updateOfflineTask, the request body of POST/PUT /tasks): a partial record,
spread over the target with `{...task, ...updates}` semantics. -/
structure TaskPatch where
  title : Option String
  completed : Option Bool
deriving DecidableEq, Repr

/-- JS object spread `{...t, ...p}`: fields present in the patch overwrite. -/
def applyPatch (t : Task) (p : TaskPatch) : Task :=
  { t with
    title := p.title.getD t.title
    completed := p.completed.getD t.completed }

/-- StorageService.getTasks (IndexedDB branch, lines 53-56): reads the
`userId` index of the tasks store and returns every task of that owner. -/
def getTasks (store : List Task) (u : String) : List Task :=
  store.filter (fun t => t.userId = u)

/-- StorageService.saveTask, IndexedDB branch (line 76): `tx.store.put(task)`
replaces the record whose key `_id` equals the key of `task`, or adds the
record when the key is absent.  An IndexedDB store holds at most one record
per key, so replacing the first occurrence is the keyed-put semantics. -/
def storePut : List Task → Task → List Task
  | [], t => [t]
  | u :: us, t => if u._id = t._id then t :: us else u :: storePut us t

/-- StorageService.saveTask, localStorage fallback branch (lines 60-72):
reads the array persisted under `tasks_userId`, replaces the entry at
`findIndex(t => t._id === task._id)` when that index is not negative, pushes
the task otherwise, and writes the array back.  Arrays under other
`tasks_*` keys are untouched, so the embedding acts on the one array. -/
def lsSaveTask : List Task → Task → List Task
  | [], t => [t]
  | u :: us, t => if u._id = t._id then t :: us else u :: lsSaveTask us t

/-- StorageService.deleteTask, IndexedDB branch (line 103):
`tx.store.delete(taskId)` removes the record carrying that key (the `userId`
argument is unused in this branch). -/
def storeDelete (store : List Task) (taskId : String) : List Task :=
  store.filter (fun t => ¬ t._id = taskId)

/-- Queued-operation tags written by SyncService (storageService.js second
document): the `type` field of the items handed to addToSyncQueue. -/
inductive OpType where
  | create
  | update
  | delete
deriving DecidableEq, Repr

/-- The string stored in the `type` field of a queued operation. -/
def OpType.str : OpType → String
  | .create => "CREATE"
  | .update => "UPDATE"
  | .delete => "DELETE"

/-- Item of the `sync_queue` store, as built by StorageService.addToSyncQueue
(lines 124-128): the operation fields plus an enqueue `timestamp` and the
generated string key `id`.  Delete operations carry no payload; we keep the
payload field and ignore it for deletes, as the code does. -/
structure SyncItem where
  type : OpType
  taskId : String
  data : TaskPatch
  timestamp : Nat
  id : String
deriving DecidableEq, Repr

/-- The generated queue key (line 127):
`${operation.type}_${operation.taskId || Date.now()}_${Math.random()}`.
Every enqueuer in SyncService passes a non-empty `taskId`, so the
`Date.now()` fallback of the `||` is never taken. -/
def opKey (ty : OpType) (taskId : String) (rand : String) : String :=
  ty.str ++ "_" ++ taskId ++ "_" ++ rand

/-- Lexicographic order on character lists by code point: the order
IndexedDB uses to compare string keys (code-unit order; all keys generated
here are ASCII, where code-point and code-unit order agree). -/
def charsLt : List Char → List Char → Bool
  | [], [] => false
  | [], _ :: _ => true
  | _ :: _, [] => false
  | a :: as, b :: bs =>
    if a.toNat < b.toNat then true
    else if a.toNat = b.toNat then charsLt as bs
    else false

/-- IndexedDB string-key comparison. -/
def keyLt (a b : String) : Bool :=
  charsLt a.data b.data

/-- Character-list version of a string starting with a given sequence. -/
def charsStartsWith : List Char → List Char → Bool
  | [], _ => true
  | _ :: _, [] => false
  | a :: as, b :: bs => if a.toNat = b.toNat then charsStartsWith as bs else false

/-- JS `s.startsWith(pre)` on the character lists (the byte-position
implementation of the core library String.startsWith is observably the
same function but does not evaluate inside proofs). -/
def jsStartsWith (s pre : String) : Bool :=
  charsStartsWith pre.data s.data

/-- Effect of `tx.store.add(syncItem)` on the key-ordered `sync_queue` store:
the item is inserted at its key position. -/
def queueAdd (it : SyncItem) : List SyncItem → List SyncItem
  | [] => [it]
  | x :: xs => if keyLt it.id x.id then it :: x :: xs else x :: queueAdd it xs

/-- StorageService.removeFromSyncQueue, IndexedDB branch (line 163):
`tx.store.delete(id)` removes the record carrying that key. -/
def queueRemove (q : List SyncItem) (id : String) : List SyncItem :=
  q.filter (fun it => ¬ it.id = id)

/-- StorageService.getSyncQueue, IndexedDB branch (line 150):
`tx.store.getAll()` returns the records in ascending key order, which is
how the store list is maintained. -/
def getSyncQueue (q : List SyncItem) : List SyncItem :=
  q

/-- Outcomes of a gateway request as seen by ApiService.request
(apiService.js lines 31-52): a fetch failure surfaces as a network error,
a non-ok status surfaces as a thrown `Error` carrying the response message;
the route answers relevant here are 404 (not found) on PUT/DELETE of an
absent task.  Both outcomes are thrown exceptions on the client. -/
inductive GatewayError where
  | networkError
  | notFound
deriving DecidableEq, Repr

deriving instance DecidableEq for Except

/-- Failure observed by the drain for one operation: a thrown gateway
error (network or non-ok status), or the client-side DataError thrown by
the IndexedDB put of a value without the `_id` key. -/
inductive DrainError where
  | gateway (e : GatewayError)
  | dataError
deriving DecidableEq, Repr

/-- Parsed body of the POST /api/tasks and PUT /api/tasks/:id responses:
`{success, task}`.  ApiService.request returns this body unchanged, and
TaskService passes it through, so this envelope — not the task — is what
`newTask`/`updatedTask` hold in SyncService.processOperation. -/
structure TaskEnvelope where
  success : Bool
  task : Task
deriving DecidableEq, Repr

/-- The pagination block of the GET /api/tasks response. -/
structure Pagination where
  page : Nat
  limit : Nat
  total : Nat
  pages : Nat
deriving DecidableEq, Repr

/-- Parsed body of the GET /api/tasks response:
`{success, tasks, pagination}`.  This object — not the task array — is
what `serverTasks` holds in SyncService.syncFromServer. -/
structure ListEnvelope where
  success : Bool
  tasks : List Task
  pagination : Pagination
deriving DecidableEq, Repr

/-- Server-side task collection together with the id counter of the
document store and a reachability flag standing for connectivity. -/
structure Gateway where
  tasks : List Task
  nextId : Nat
  reachable : Bool
deriving DecidableEq, Repr

/-- Server-assigned identifier (Mongo ObjectId, modelled as a counter in a
namespace disjoint from the `offline_` temporary ids). -/
def serverId (n : Nat) : String :=
  "srv" ++ toString n

/-- POST /api/tasks (tasks.js lines 285-302, reached through
TaskService.createTask): `Task.create({...req.body, userId: req.user._id})`
assigns a fresh id and sets both timestamps; the client receives the
parsed `{success, task}` response body, not the bare task. -/
def serverCreate (g : Gateway) (u : String) (p : TaskPatch) (now : Nat) :
    Except GatewayError (TaskEnvelope × Gateway) :=
  if g.reachable then
    let t : Task :=
      { _id := serverId g.nextId, userId := u,
        title := p.title.getD "", completed := p.completed.getD false,
        createdAt := now, updatedAt := now, isOffline := false }
    .ok ({ success := true, task := t },
      { g with tasks := g.tasks ++ [t], nextId := g.nextId + 1 })
  else .error .networkError

/-- PUT /api/tasks/:id (tasks.js lines 363-388, reached through
TaskService.updateTask): `findOneAndUpdate({_id, userId}, body, {new:true})`
applies the body to the matched document and refreshes `updatedAt`;
answers 404 when no document matches.  The client receives the parsed
`{success, task}` response body. -/
def serverUpdate (g : Gateway) (u : String) (id : String) (p : TaskPatch)
    (now : Nat) : Except GatewayError (TaskEnvelope × Gateway) :=
  if g.reachable then
    match g.tasks.find? (fun t => t._id = id ∧ t.userId = u) with
    | some t =>
      let t' := { applyPatch t p with updatedAt := now }
      .ok ({ success := true, task := t' }, { g with tasks := storePut g.tasks t' })
    | none => .error .notFound
  else .error .networkError

/-- DELETE /api/tasks/:id (tasks.js lines 411-435, reached through
TaskService.deleteTask): `findOneAndDelete({_id, userId})`; answers 404
when no document matches. -/
def serverDelete (g : Gateway) (u : String) (id : String) :
    Except GatewayError (Unit × Gateway) :=
  if g.reachable then
    if g.tasks.any (fun t => t._id = id ∧ t.userId = u) then
      .ok ((), { g with tasks := g.tasks.filter (fun t => ¬ (t._id = id ∧ t.userId = u)) })
    else .error .notFound
  else .error .networkError

/-- Stable insertion step for the default sort of GET /api/tasks
(`createdAt` descending; Mongo keeps matched order stable per batch). -/
def insertByCreatedDesc (t : Task) : List Task → List Task
  | [] => [t]
  | x :: xs =>
    if t.createdAt ≤ x.createdAt then x :: insertByCreatedDesc t xs
    else t :: x :: xs

/-- Sort by `createdAt` descending (stable). -/
def sortByCreatedDesc : List Task → List Task
  | [] => []
  | t :: ts => insertByCreatedDesc t (sortByCreatedDesc ts)

/-- GET /api/tasks (tasks.js lines 105-175, reached through
TaskService.getTasks with no filters): the tasks of the authenticated
user, default sort `createdAt` descending, default page of 50, delivered
to the client inside the parsed `{success, tasks, pagination}` body. -/
def serverList (g : Gateway) (u : String) : Except GatewayError ListEnvelope :=
  if g.reachable then
    let matched := g.tasks.filter (fun t => t.userId = u)
    .ok { success := true,
          tasks := (sortByCreatedDesc matched).take 50,
          pagination := { page := 1, limit := 50, total := matched.length,
                          pages := (matched.length + 49) / 50 } }
  else .error .networkError

/-- Client-side state of SyncService together with the two IndexedDB
collections of StorageService: connectivity flag, in-progress guard,
session user, tasks store and sync queue. -/
structure Client where
  isOnline : Bool
  syncInProgress : Bool
  userId : Option String
  store : List Task
  queue : List SyncItem
deriving DecidableEq, Repr

/-- StorageService.addToSyncQueue, IndexedDB branch (lines 123-140): wraps
the operation with the current timestamp and the generated key, then
`tx.store.add(syncItem)`. -/
def addToSyncQueue (q : List SyncItem) (ty : OpType) (taskId : String)
    (p : TaskPatch) (now : Nat) (rand : String) : List SyncItem :=
  queueAdd
    { type := ty, taskId := taskId, data := p, timestamp := now,
      id := opKey ty taskId rand } q

/-- The temporary id generated by SyncService.createOfflineTask (line 245):
`offline_${Date.now()}_${Math.random()}`. -/
def tempId (now : Nat) (rand : String) : String :=
  "offline_" ++ toString now ++ "_" ++ rand

/-- SyncService.getOfflineTasks (lines 237-240): empty when no user id is
set, otherwise the tasks of the session user. -/
def getOfflineTasks (c : Client) : List Task :=
  match c.userId with
  | none => []
  | some u => getTasks c.store u

/-- A patch with no fields, the payload shape of a queued delete (which
carries no `data`). -/
def emptyPatch : TaskPatch :=
  { title := none, completed := none }

/-- SyncService.createOfflineTask (lines 242-260): builds the unconfirmed
record from the payload with a fresh temporary id and both timestamps set
to now, saves it, and enqueues a CREATE carrying the original payload.
The session is logged in, so `this.userId` is the session user (spec has a
single authenticated owner per session). -/
def createOfflineTask (c : Client) (p : TaskPatch) (now : Nat)
    (rand randOp : String) : Client × Task :=
  let t : Task :=
    { _id := tempId now rand, userId := c.userId.getD "",
      title := p.title.getD "", completed := p.completed.getD false,
      createdAt := now, updatedAt := now, isOffline := true }
  ({ c with
      store := storePut c.store t,
      queue := addToSyncQueue c.queue .create t._id p now randOp }, t)

/-- SyncService.updateOfflineTask (lines 262-284): looks the task up among
the session tasks; when found, spreads the updates over it, refreshes
`updatedAt`, saves it and enqueues an UPDATE carrying the updates; when
absent, throws `Task not found` having written nothing.  The returned pair
is (thrown error or returned task, resulting client state). -/
def updateOfflineTask (c : Client) (taskId : String) (updates : TaskPatch)
    (now : Nat) (randOp : String) : Except String Task × Client :=
  match (getOfflineTasks c).find? (fun t => t._id = taskId) with
  | some task =>
    let updatedTask := { applyPatch task updates with updatedAt := now }
    (.ok updatedTask,
     { c with
        store := storePut c.store updatedTask,
        queue := addToSyncQueue c.queue .update taskId updates now randOp })
  | none => (.error "Task not found", c)

/-- SyncService.deleteOfflineTask (lines 286-292): removes the record from
the local store and enqueues a DELETE (no payload). -/
def deleteOfflineTask (c : Client) (taskId : String) (now : Nat)
    (randOp : String) : Client :=
  { c with
      store := storeDelete c.store taskId,
      queue := addToSyncQueue c.queue .delete taskId emptyPatch now randOp }

/-- The JS value handed to StorageService.saveTask: the offline mutators
and the merge pass task records, but the drain branches of
SyncService.processOperation pass the `{success, task}` response envelope
that taskService returned. -/
inductive PutVal where
  | task (t : Task)
  | env (e : TaskEnvelope)
deriving DecidableEq, Repr

/-- StorageService.saveTask (IndexedDB branch, line 76) on the JS value
actually passed: `tx.store.put(v)` extracts the key at keyPath `_id`; a
task record is stored, while the `{success, task}` envelope carries no
`_id` member, so the put throws a DataError before writing anything. -/
def saveTaskPut (store : List Task) : PutVal → Except DrainError (List Task)
  | .task t => .ok (storePut store t)
  | .env _ => .error .dataError

/-- SyncService.processOperation (lines 324-361).  CREATE: dispatch the
payload to the gateway; on success `newTask` is the `{success, task}`
envelope — the temporary record is deleted, then `saveTask(newTask)`
throws the DataError (no `_id`), so the thrown error propagates with the
local delete already applied and the server already holding the task.
UPDATE: only when the task is still among the session tasks and its id is
not temporary, dispatch the updates; on success `updatedTask` is again the
envelope and `saveTask(updatedTask)` throws.  DELETE: dispatch unless the
id is temporary (the response body is unused, so deletes complete).  The
result is (outcome, client state, gateway state, gateway dispatch count);
the states carry whatever effects happened before a throw. -/
def processOperation (c : Client) (g : Gateway) (op : SyncItem) (now : Nat) :
    Except DrainError Unit × Client × Gateway × Nat :=
  match op.type with
  | .create =>
    match serverCreate g (c.userId.getD "") op.data now with
    | .ok (newTask, g') =>
      let store1 := storeDelete c.store op.taskId
      match saveTaskPut store1 (.env newTask) with
      | .ok store2 => (.ok (), { c with store := store2 }, g', 1)
      | .error e => (.error e, { c with store := store1 }, g', 1)
    | .error e => (.error (.gateway e), c, g, 1)
  | .update =>
    match (getOfflineTasks c).find? (fun t => t._id = op.taskId) with
    | some localTask =>
      if ¬ jsStartsWith localTask._id "offline_" then
        match serverUpdate g (c.userId.getD "") op.taskId op.data now with
        | .ok (updatedTask, g') =>
          match saveTaskPut c.store (.env updatedTask) with
          | .ok store2 => (.ok (), { c with store := store2 }, g', 1)
          | .error e => (.error e, c, g', 1)
        | .error e => (.error (.gateway e), c, g, 1)
      else (.ok (), c, g, 0)
    | none => (.ok (), c, g, 0)
  | .delete =>
    if ¬ jsStartsWith op.taskId "offline_" then
      match serverDelete g (c.userId.getD "") op.taskId with
      | .ok (_, g') => (.ok (), c, g', 1)
      | .error e => (.error (.gateway e), c, g, 1)
    else (.ok (), c, g, 0)

/-- The drain loop of SyncService.syncPendingChanges (lines 304-312): the
snapshot of the queue is walked in order; a successful operation is removed
from the live queue, a failed one is kept for retry (keeping whatever
client and server effects happened before the throw) and the loop continues
with the next operation.  Returns the final client, gateway and the number
of gateway dispatches. -/
def drainList (c : Client) (g : Gateway) (ops : List SyncItem) (now : Nat) :
    Client × Gateway × Nat :=
  match ops with
  | [] => (c, g, 0)
  | op :: rest =>
    match processOperation c g op now with
    | (.ok _, c', g', k) =>
      let c'' := { c' with queue := queueRemove c'.queue op.id }
      let (cf, gf, n) := drainList c'' g' rest now
      (cf, gf, k + n)
    | (.error _, c', g', k) =>
      let (cf, gf, n) := drainList c' g' rest now
      (cf, gf, k + n)

/-- The merge step of SyncService.syncFromServer (lines 369-383) as it
would run on a task array: server tasks absent from the session tasks, and
server tasks whose `updatedAt` is strictly newer than the local copy, are
saved into the local store; nothing is deleted.  The program never reaches
this code with an array — see syncFromServerBody. -/
def mergeServerTasks (c : Client) (serverTasks : List Task) : Client :=
  let localTasks := getOfflineTasks c
  let newTasks := serverTasks.filter
    (fun s => ¬ localTasks.any (fun l => l._id = s._id))
  let updatedTasks := serverTasks.filter (fun s =>
    match localTasks.find? (fun l => l._id = s._id) with
    | some l => l.updatedAt < s.updatedAt
    | none => false)
  { c with store := (newTasks ++ updatedTasks).foldl storePut c.store }

/-- The JS value held by `serverTasks` in syncFromServer: the code wishes
for a task array, but taskService.getTasks resolves to the parsed
`{success, tasks, pagination}` response body. -/
inductive TasksVal where
  | arr (ts : List Task)
  | obj (e : ListEnvelope)
deriving DecidableEq, Repr

/-- Body of SyncService.syncFromServer after the fetch, on the JS value in
`serverTasks`: on an array it performs the merge of lines 369-383; on the
response envelope the first member call, `serverTasks.filter` (line 369),
throws a TypeError because the envelope has no array methods. -/
def syncFromServerBody (c : Client) : TasksVal → Except String Client
  | .arr serverTasks => .ok (mergeServerTasks c serverTasks)
  | .obj _ => .error "TypeError: serverTasks.filter is not a function"

/-- SyncService.syncFromServer (lines 363-394): fetch the task list of the
session user.  `serverTasks` receives the `{success, tasks, pagination}`
envelope, so the body throws at `serverTasks.filter`; the catch at line
391 logs the error, leaving the client unchanged — as it also does on a
fetch error.  The gateway is only read. -/
def syncFromServer (c : Client) (g : Gateway) : Client :=
  match serverList g (c.userId.getD "") with
  | .ok env =>
    match syncFromServerBody c (.obj env) with
    | .ok c' => c'
    | .error _ => c
  | .error _ => c

/-- SyncService.syncPendingChanges (lines 294-322): a no-op when offline,
when a pass is already in progress, or when no user id is set; otherwise
sets the in-progress guard, drains the queue snapshot, reconciles from the
server, and clears the guard in the `finally`.  Returns the final client,
gateway, and number of gateway dispatches made by the drain. -/
def syncPendingChanges (c : Client) (g : Gateway) (now : Nat) :
    Client × Gateway × Nat :=
  if ¬ c.isOnline ∨ c.syncInProgress ∨ c.userId = none then
    (c, g, 0)
  else
    let c0 := { c with syncInProgress := true }
    let snapshot := getSyncQueue c0.queue
    let (c1, g1, n) := drainList c0 g snapshot now
    let c2 := syncFromServer c1 g1
    ({ c2 with syncInProgress := false }, g1, n)

/-- A direct online mutation: what the application performs for the same
user action when connectivity is up (TaskService calling the task routes
directly). -/
inductive Mutation where
  | create (p : TaskPatch)
  | update (id : String) (p : TaskPatch)
  | delete (id : String)
deriving DecidableEq, Repr

/-- Applying one mutation directly online: the corresponding gateway call;
a failed call leaves the server unchanged. -/
def applyOnline (g : Gateway) (u : String) (m : Mutation) (now : Nat) : Gateway :=
  match m with
  | .create p =>
    match serverCreate g u p now with
    | .ok (_, g') => g'
    | .error _ => g
  | .update id p =>
    match serverUpdate g u id p now with
    | .ok (_, g') => g'
    | .error _ => g
  | .delete id =>
    match serverDelete g u id with
    | .ok (_, g') => g'
    | .error _ => g

/-- Minimal JS value model for the localStorage branch of the queue
methods: an `async` function call yields a Promise of the eventual array,
and array methods are absent on a Promise. -/
inductive JsVal where
  | arr (items : List SyncItem)
  | promiseOfArr (items : List SyncItem)
deriving DecidableEq, Repr

/-- A call of the `async` StorageService.getSyncQueue without `await`
(lines 131 and 155 call it this way): the value in hand is the pending
Promise, not the array. -/
def getSyncQueueCall (stored : List SyncItem) : JsVal :=
  .promiseOfArr stored

/-- JS member call `queue.push(item)`: appends when `queue` is an array; on
a Promise the member is `undefined` and the call throws a TypeError. -/
def jsPush (v : JsVal) (it : SyncItem) : Except String JsVal :=
  match v with
  | .arr items => .ok (.arr (items ++ [it]))
  | .promiseOfArr _ => .error "TypeError: queue.push is not a function"

/-- JS member call `queue.filter(item => item.id !== id)`: filters when
`queue` is an array; on a Promise the member is `undefined` and the call
throws a TypeError. -/
def jsFilterNe (v : JsVal) (id : String) : Except String JsVal :=
  match v with
  | .arr items => .ok (.arr (items.filter (fun it => ¬ it.id = id)))
  | .promiseOfArr _ => .error "TypeError: queue.filter is not a function"

/-- StorageService.addToSyncQueue, localStorage branch (lines 130-135):
`const queue = this.getSyncQueue()` with no `await`, `queue.push(syncItem)`,
then write back.  First component: the thrown error or unit; second: the
queue persisted in localStorage after the call. -/
def lsAddToSyncQueue (stored : List SyncItem) (ty : OpType) (taskId : String)
    (p : TaskPatch) (now : Nat) (rand : String) :
    Except String Unit × List SyncItem :=
  let syncItem : SyncItem :=
    { type := ty, taskId := taskId, data := p, timestamp := now,
      id := opKey ty taskId rand }
  match jsPush (getSyncQueueCall stored) syncItem with
  | .ok (.arr items) => (.ok (), items)
  | .ok (.promiseOfArr _) => (.ok (), stored)
  | .error e => (.error e, stored)

/-- StorageService.removeFromSyncQueue, localStorage branch (lines 154-158):
`const queue = this.getSyncQueue()` with no `await`, then
`queue.filter(item => item.id !== id)` and write back. -/
def lsRemoveFromSyncQueue (stored : List SyncItem) (id : String) :
    Except String Unit × List SyncItem :=
  match jsFilterNe (getSyncQueueCall stored) id with
  | .ok (.arr items) => (.ok (), items)
  | .ok (.promiseOfArr _) => (.ok (), stored)
  | .error e => (.error e, stored)

/-- One enqueue call to StorageService.addToSyncQueue: the operation fields
together with the clock value and random suffix of that call. -/
structure EnqueueReq where
  ty : OpType
  taskId : String
  data : TaskPatch
  now : Nat
  rand : String
deriving DecidableEq, Repr

/-- The sync item a given enqueue call stores. -/
def reqItem (r : EnqueueReq) : SyncItem :=
  { type := r.ty, taskId := r.taskId, data := r.data, timestamp := r.now,
    id := opKey r.ty r.taskId r.rand }

/-- A sequence of enqueue calls against the IndexedDB queue. -/
def enqueueAll (q : List SyncItem) : List EnqueueReq → List SyncItem
  | [] => q
  | r :: rs => enqueueAll (addToSyncQueue q r.ty r.taskId r.data r.now r.rand) rs

/-! ### Concrete scenarios used by the closed theorems -/

/-- A session with user u1, empty local state. -/
def demoClient : Client :=
  { isOnline := true, syncInProgress := false, userId := some "u1",
    store := [], queue := [] }

/-- An empty reachable server. -/
def demoGateway : Gateway :=
  { tasks := [], nextId := 0, reachable := true }

/-- The payload of the scenario of spec section 8. -/
def demoPatch : TaskPatch :=
  { title := some "Buy milk", completed := none }

/-- Offline create of a task (clock 100). -/
def demoCreate : Client × Task :=
  createOfflineTask demoClient demoPatch 100 "r1" "q1"

/-- Offline delete of the task just created, before any sync pass. -/
def demoOffline : Client :=
  deleteOfflineTask demoCreate.1 demoCreate.2._id 101 "q2"

/-- Draining the queue after reconnecting (gateway clock 200). -/
def demoDrained : Client × Gateway × Nat :=
  syncPendingChanges demoOffline demoGateway 200

/-- The same two mutations applied directly online at the same gateway
clock: create, then delete the task the creation returned (the server
assigns it the id `serverId 0`). -/
def demoOnline : Gateway :=
  applyOnline (applyOnline demoGateway "u1" (.create demoPatch) 200) "u1"
    (.delete (serverId 0)) 200

/-- A confirmed task of user u1 present only locally (the server copy was
removed remotely). -/
def demoTaskA : Task :=
  { _id := "a1", userId := "u1", title := "x", completed := false,
    createdAt := 5, updatedAt := 5, isOffline := false }

/-- A session holding demoTaskA locally with a queued UPDATE for it; the
reachable server does not know the id, so the dispatch gets 404. -/
def demoStaleClient : Client :=
  { isOnline := true, syncInProgress := false, userId := some "u1",
    store := [demoTaskA],
    queue := addToSyncQueue [] .update "a1"
      { title := some "y", completed := none } 6 "r" }

/-- Draining the stale UPDATE against the empty reachable server. -/
def demoStaleDrained : Client × Gateway × Nat :=
  syncPendingChanges demoStaleClient demoGateway 300

/-- A session with two queued deletes of confirmed ids. -/
def demoTwoDeletes : Client :=
  { isOnline := true, syncInProgress := false, userId := some "u1",
    store := [],
    queue := addToSyncQueue
      (addToSyncQueue [] .delete "a1" emptyPatch 1 "r1")
      .delete "b1" emptyPatch 2 "r2" }

/-- An unreachable gateway (connectivity lost after the pass started). -/
def demoUnreachable : Gateway :=
  { tasks := [demoTaskA], nextId := 1, reachable := false }

/-- Draining both deletes while the gateway is unreachable. -/
def demoOfflineDrain : Client × Gateway × Nat :=
  syncPendingChanges demoTwoDeletes demoUnreachable 300

/-- Server copy of task a1 carrying a strictly newer update stamp. -/
def demoTaskANewer : Task :=
  { _id := "a1", userId := "u1", title := "newer", completed := true,
    createdAt := 5, updatedAt := 10, isOffline := false }

/-- A session holding demoTaskA locally with an empty queue. -/
def demoHolderClient : Client :=
  { isOnline := true, syncInProgress := false, userId := some "u1",
    store := [demoTaskA], queue := [] }

/-- The item demoStaleClient has queued (UPDATE of a1). -/
def demoStaleItem : SyncItem :=
  { type := .update, taskId := "a1",
    data := { title := some "y", completed := none }, timestamp := 6,
    id := "UPDATE_a1_r" }

/-- A queued DELETE of the confirmed id a1. -/
def demoDelItemA : SyncItem :=
  { type := .delete, taskId := "a1", data := emptyPatch, timestamp := 1,
    id := "DELETE_a1_r1" }

/-- A queued DELETE of the confirmed id b1. -/
def demoDelItemB : SyncItem :=
  { type := .delete, taskId := "b1", data := emptyPatch, timestamp := 2,
    id := "DELETE_b1_r2" }

/-- Enqueue call of an UPDATE for task t1 (clock 1). -/
def demoUpdReq : EnqueueReq :=
  { ty := .update, taskId := "t1", data := emptyPatch, now := 1, rand := "a" }

/-- Enqueue call of a DELETE for the same task t1, made later (clock 2). -/
def demoDelReq : EnqueueReq :=
  { ty := .delete, taskId := "t1", data := emptyPatch, now := 2, rand := "b" }

/-! ### Helper lemmas about the store, the queue and the drain -/

theorem storePut_idem (s : List Task) (t : Task) :
    storePut (storePut s t) t = storePut s t := by
  induction s with
  | nil => simp [storePut]
  | cons u us ih =>
    by_cases h : u._id = t._id
    · simp [storePut, h]
    · simp [storePut, h, ih]

theorem lsSaveTask_idem (s : List Task) (t : Task) :
    lsSaveTask (lsSaveTask s t) t = lsSaveTask s t := by
  induction s with
  | nil => simp [lsSaveTask]
  | cons u us ih =>
    by_cases h : u._id = t._id
    · simp [lsSaveTask, h]
    · simp [lsSaveTask, h, ih]

theorem mem_storePut (s : List Task) (t x : Task) (hx : x ∈ storePut s t) :
    x = t ∨ x ∈ s := by
  induction s with
  | nil => simp [storePut] at hx; simp [hx]
  | cons u us ih =>
    by_cases h : u._id = t._id
    · simp [storePut, h] at hx
      rcases hx with hx | hx
      · exact Or.inl hx
      · exact Or.inr (List.mem_cons_of_mem _ hx)
    · simp [storePut, h] at hx
      rcases hx with hx | hx
      · exact Or.inr (by simp [hx])
      · rcases ih hx with h1 | h1
        · exact Or.inl h1
        · exact Or.inr (List.mem_cons_of_mem _ h1)

theorem storePut_nodup (s : List Task) (t : Task)
    (h : (s.map fun x => x._id).Nodup) :
    ((storePut s t).map fun x => x._id).Nodup := by
  induction s with
  | nil => simp [storePut]
  | cons u us ih =>
    simp only [List.map_cons, List.nodup_cons] at h
    by_cases hid : u._id = t._id
    · simp only [storePut, if_pos hid, List.map_cons, List.nodup_cons]
      refine ⟨?_, h.2⟩
      intro hmem
      exact h.1 (hid ▸ hmem)
    · simp only [storePut, if_neg hid, List.map_cons, List.nodup_cons]
      refine ⟨?_, ih h.2⟩
      intro hmem
      rcases List.mem_map.mp hmem with ⟨y, hy, hyid⟩
      rcases mem_storePut us t y hy with rfl | hyus
      · exact hid hyid.symm
      · exact h.1 (List.mem_map.mpr ⟨y, hyus, hyid⟩)

theorem filter_id_eq_nil (s : List Task) (i : String)
    (h : ∀ x ∈ s, ¬ x._id = i) :
    s.filter (fun x => x._id = i) = [] := by
  induction s with
  | nil => rfl
  | cons u us ih =>
    have hu := h u (by simp)
    simp only [List.filter_cons, decide_eq_true_eq]
    rw [if_neg hu]
    exact ih (fun x hx => h x (List.mem_cons_of_mem _ hx))

theorem storePut_count_one (s : List Task) (t : Task)
    (h : (s.map fun x => x._id).Nodup) :
    ((storePut s t).filter (fun x => x._id = t._id)).length = 1 := by
  induction s with
  | nil => simp [storePut]
  | cons u us ih =>
    simp only [List.map_cons, List.nodup_cons] at h
    by_cases hid : u._id = t._id
    · have hus : us.filter (fun x => x._id = t._id) = [] := by
        refine filter_id_eq_nil us t._id (fun x hx hxid => ?_)
        exact h.1 (hid ▸ hxid ▸ List.mem_map.mpr ⟨x, hx, rfl⟩)
      simp [storePut, hid, List.filter_cons, hus]
    · simp only [storePut, if_neg hid, List.filter_cons, decide_eq_true_eq]
      exact ih h.2

theorem find?_storePut_self (s : List Task) (t : Task) :
    (storePut s t).find? (fun y => y._id = t._id) = some t := by
  induction s with
  | nil => simp [storePut]
  | cons u us ih =>
    by_cases h : u._id = t._id
    · simp [storePut, h]
    · simp [storePut, h, ih]

theorem find?_storePut_ne (s : List Task) (t : Task) (i : String)
    (h : ¬ t._id = i) :
    (storePut s t).find? (fun y => y._id = i) = s.find? (fun y => y._id = i) := by
  induction s with
  | nil => simp [storePut, h]
  | cons u us ih =>
    by_cases hu : u._id = t._id
    · have hui : ¬ u._id = i := by rw [hu]; exact h
      rw [storePut, if_pos hu,
        List.find?_cons_of_neg _ (by simpa using h),
        List.find?_cons_of_neg _ (by simpa using hui)]
    · rw [storePut, if_neg hu]
      by_cases hui : u._id = i
      · rw [List.find?_cons_of_pos _ (by simpa using hui),
          List.find?_cons_of_pos _ (by simpa using hui)]
      · rw [List.find?_cons_of_neg _ (by simpa using hui),
          List.find?_cons_of_neg _ (by simpa using hui), ih]

theorem foldl_storePut_find?_not_mem (L : List Task) (s : List Task) (i : String)
    (h : ∀ y ∈ L, ¬ y._id = i) :
    (L.foldl storePut s).find? (fun y => y._id = i) = s.find? (fun y => y._id = i) := by
  induction L generalizing s with
  | nil => rfl
  | cons x xs ih =>
    have hx := h x (by simp)
    simp only [List.foldl_cons]
    rw [ih (storePut s x) (fun y hy => h y (List.mem_cons_of_mem _ hy))]
    exact find?_storePut_ne s x i hx

theorem foldl_storePut_find?_mem (L : List Task) (s : List Task) (x : Task)
    (hnd : (L.map fun y => y._id).Nodup) (hx : x ∈ L) :
    (L.foldl storePut s).find? (fun y => y._id = x._id) = some x := by
  induction L generalizing s with
  | nil => cases hx
  | cons z zs ih =>
    simp only [List.map_cons, List.nodup_cons] at hnd
    rcases List.mem_cons.mp hx with rfl | hxz
    · simp only [List.foldl_cons]
      rw [foldl_storePut_find?_not_mem zs (storePut s x) x._id
        (fun y hy hyid => hnd.1 (hyid ▸ List.mem_map.mpr ⟨y, hy, rfl⟩))]
      exact find?_storePut_self s x
    · simp only [List.foldl_cons]
      exact ih (storePut s z) hnd.2 hxz

theorem find?_of_nodup_mem (s : List Task) (l : Task)
    (hnd : (s.map fun x => x._id).Nodup) (hl : l ∈ s) :
    s.find? (fun y => y._id = l._id) = some l := by
  induction s with
  | nil => cases hl
  | cons u us ih =>
    simp only [List.map_cons, List.nodup_cons] at hnd
    rcases List.mem_cons.mp hl with rfl | hlus
    · simp [List.find?_cons]
    · have hu : ¬ u._id = l._id := by
        intro h
        exact hnd.1 (h ▸ List.mem_map.mpr ⟨l, hlus, rfl⟩)
      rw [List.find?_cons_of_neg _ (by simpa using hu)]
      exact ih hnd.2 hlus

theorem nodup_id_inj (S : List Task) (hnd : (S.map fun x => x._id).Nodup)
    (y z : Task) (hy : y ∈ S) (hz : z ∈ S) (hid : y._id = z._id) : y = z := by
  induction S with
  | nil => cases hy
  | cons u us ih =>
    simp only [List.map_cons, List.nodup_cons] at hnd
    rcases List.mem_cons.mp hy with rfl | hyus
    · rcases List.mem_cons.mp hz with rfl | hzus
      · rfl
      · refine absurd ?_ hnd.1
        rw [hid]
        exact List.mem_map.mpr ⟨z, hzus, rfl⟩
    · rcases List.mem_cons.mp hz with rfl | hzus
      · refine absurd ?_ hnd.1
        rw [← hid]
        exact List.mem_map.mpr ⟨y, hyus, rfl⟩
      · exact ih hnd.2 hyus hzus

theorem charsLt_asymm (a : List Char) : ∀ (b : List Char),
    charsLt a b = true → charsLt b a = false := by
  induction a with
  | nil =>
    intro b h
    cases b with
    | nil => simp [charsLt] at h
    | cons c cs => simp [charsLt]
  | cons x xs ih =>
    intro b h
    cases b with
    | nil => simp [charsLt] at h
    | cons y ys =>
      simp only [charsLt] at h ⊢
      by_cases h1 : x.toNat < y.toNat
      · have h2 : ¬ y.toNat < x.toNat := by omega
        have h3 : ¬ y.toNat = x.toNat := by omega
        simp [h2, h3]
      · by_cases h2 : x.toNat = y.toNat
        · simp only [if_neg h1, if_pos h2] at h
          have h3 : ¬ y.toNat < x.toNat := by omega
          simp [h3, h2.symm, ih ys h]
        · simp [h1, h2] at h

theorem keyLt_asymm (a b : String) (h : keyLt a b = true) : keyLt b a = false :=
  charsLt_asymm a.data b.data h

theorem queueAdd_last (it : SyncItem) (q : List SyncItem)
    (h : ∀ x ∈ q, keyLt x.id it.id = true) : queueAdd it q = q ++ [it] := by
  induction q with
  | nil => rfl
  | cons x xs ih =>
    have hx : keyLt it.id x.id = false := keyLt_asymm _ _ (h x (by simp))
    simp [queueAdd, hx, ih (fun y hy => h y (List.mem_cons_of_mem _ hy))]

theorem queueAdd_perm (it : SyncItem) (q : List SyncItem) :
    (queueAdd it q).Perm (it :: q) := by
  induction q with
  | nil => exact List.Perm.refl _
  | cons x xs ih =>
    by_cases hc : keyLt it.id x.id
    · rw [queueAdd, if_pos hc]
    · rw [queueAdd, if_neg hc]
      exact (List.Perm.cons x ih).trans (List.Perm.swap it x xs)

theorem enqueueAll_perm (rs : List EnqueueReq) : ∀ (q : List SyncItem),
    (enqueueAll q rs).Perm (q ++ rs.map reqItem) := by
  induction rs with
  | nil => intro q; simp [enqueueAll]
  | cons r rs ih =>
    intro q
    rw [enqueueAll]
    have h1 := ih (addToSyncQueue q r.ty r.taskId r.data r.now r.rand)
    have h2 : (addToSyncQueue q r.ty r.taskId r.data r.now r.rand
          ++ rs.map reqItem).Perm ((reqItem r :: q) ++ rs.map reqItem) :=
      List.Perm.append_right (rs.map reqItem) (queueAdd_perm (reqItem r) q)
    have h3 : ((reqItem r :: q) ++ rs.map reqItem).Perm
        (q ++ (r :: rs).map reqItem) := by
      simpa using
        (@List.perm_middle SyncItem (reqItem r) q (rs.map reqItem)).symm
    exact (h1.trans h2).trans h3

theorem enqueueAll_fifo (rs : List EnqueueReq) : ∀ (q : List SyncItem),
    (∀ x ∈ q, ∀ r ∈ rs, keyLt x.id (reqItem r).id = true) →
    List.Pairwise (fun a b => keyLt (reqItem a).id (reqItem b).id = true) rs →
    enqueueAll q rs = q ++ rs.map reqItem := by
  induction rs with
  | nil => intro q _ _; simp [enqueueAll]
  | cons r rs ih =>
    intro q hq hrs
    rcases List.pairwise_cons.mp hrs with ⟨hhead, htail⟩
    rw [enqueueAll]
    have haddeq : addToSyncQueue q r.ty r.taskId r.data r.now r.rand
        = queueAdd (reqItem r) q := rfl
    rw [haddeq, queueAdd_last (reqItem r) q (fun x hx => hq x hx r (by simp))]
    rw [ih (q ++ [reqItem r]) ?_ htail]
    · simp
    · intro x hx r' hr'
      rcases List.mem_append.mp hx with hxq | hxr
      · exact hq x hxq r' (List.mem_cons_of_mem _ hr')
      · have : x = reqItem r := by simpa using hxr
        rw [this]
        exact hhead r' hr'

theorem drainList_unreachable (ops : List SyncItem) : ∀ (c : Client) (g : Gateway)
    (now : Nat), g.reachable = false →
    (∀ op ∈ ops, op.type = OpType.delete ∧ jsStartsWith op.taskId "offline_" = false) →
    drainList c g ops now = (c, g, ops.length) := by
  induction ops with
  | nil => intro c g now _ _; rfl
  | cons op rest ih =>
    intro c g now hg hops
    obtain ⟨hty, hpre⟩ := hops op (by simp)
    have hproc : processOperation c g op now
        = (.error (.gateway .networkError), c, g, 1) := by
      simp [processOperation, hty, hpre, serverDelete, hg]
    simp only [drainList, hproc,
      ih c g now hg (fun o ho => hops o (List.mem_cons_of_mem _ ho))]
    simp [Nat.add_comm]

theorem syncFromServer_unreachable (c : Client) (g : Gateway)
    (hg : g.reachable = false) : syncFromServer c g = c := by
  simp [syncFromServer, serverList, hg]

theorem syncFromServer_leaves_client (c : Client) (g : Gateway) :
    syncFromServer c g = c := by
  rw [syncFromServer]
  cases serverList g (c.userId.getD "") with
  | ok env => rfl
  | error e => rfl

theorem getTasks_storePut_find_self (s : List Task) (x : Task) (u : String)
    (hu : x.userId = u) :
    (getTasks (storePut s x) u).find? (fun y => y._id = x._id) = some x := by
  induction s with
  | nil =>
    simp only [storePut, getTasks, List.filter_cons, List.filter_nil, hu]
    simp
  | cons y ys ih =>
    by_cases h : y._id = x._id
    · rw [storePut, if_pos h]
      show ((x :: ys).filter (fun t => t.userId = u)).find?
        (fun y => y._id = x._id) = some x
      rw [List.filter_cons]
      simp only [hu, decide_True, if_true]
      exact List.find?_cons_of_pos _ (by simp)
    · rw [storePut, if_neg h]
      show ((y :: storePut ys x).filter (fun t => t.userId = u)).find?
        (fun t => t._id = x._id) = some x
      rw [List.filter_cons]
      by_cases hyu : y.userId = u
      · simp only [hyu, decide_True, if_true]
        rw [List.find?_cons_of_neg _ (by simpa using h)]
        exact ih
      · rw [if_neg (by simpa using hyu)]
        exact ih

/-! ### Claim theorems -/

/-- C1, counterexample: replay equivalence fails on the code.  Creating a
task offline and then deleting it offline, then draining the queue against
a reachable gateway, yields a server holding the created task (the queued
CREATE is dispatched, the queued DELETE of the temporary id is skipped),
whereas applying the same two mutations directly online leaves the server
empty. -/
theorem C1_replay_counterexample :
    demoDrained.2.1.tasks ≠ demoOnline.tasks ∧
    demoDrained.2.1.tasks.length = 1 ∧ demoOnline.tasks.length = 0 := by
  decide

/-- C1, amended: replay equivalence holds per single offline mutation —
for one offline create, or one offline update of a task present among the
session tasks under a non-temporary id, or one offline delete of a
non-temporary id, draining the queue after reconnecting yields the same
server state as applying that mutation directly online at the same gateway
clock.  Sequences in which a later operation targets the temporary id of an
offline-created task (such as create followed by delete) break the
equivalence. -/
theorem C1_single_mutation_replay :
    (∀ (u : String) (p : TaskPatch) (s0 : List Task) (g : Gateway)
       (tc ts : Nat) (r rq : String),
      (syncPendingChanges
        ((createOfflineTask
          { isOnline := true, syncInProgress := false, userId := some u,
            store := s0, queue := [] } p tc r rq).1) g ts).2.1
        = applyOnline g u (.create p) ts) ∧
    (∀ (u : String) (s0 : List Task) (g : Gateway) (tid : String)
       (p : TaskPatch) (t0 : Task) (tu ts : Nat) (rq : String),
      (getTasks s0 u).find? (fun t => t._id = tid) = some t0 →
      jsStartsWith t0._id "offline_" = false →
      (syncPendingChanges
        ((updateOfflineTask
          { isOnline := true, syncInProgress := false, userId := some u,
            store := s0, queue := [] } tid p tu rq).2) g ts).2.1
        = applyOnline g u (.update tid p) ts) ∧
    (∀ (u : String) (s0 : List Task) (g : Gateway) (tid : String)
       (td ts : Nat) (rq : String),
      jsStartsWith tid "offline_" = false →
      (syncPendingChanges
        (deleteOfflineTask
          { isOnline := true, syncInProgress := false, userId := some u,
            store := s0, queue := [] } tid td rq) g ts).2.1
        = applyOnline g u (.delete tid) ts) := by
  refine ⟨?_, ?_, ?_⟩
  · intro u p s0 g tc ts r rq
    cases hsrv : serverCreate g u p ts with
    | error e =>
      rw [syncPendingChanges, if_neg (by simp [createOfflineTask])]
      simp [createOfflineTask, addToSyncQueue, queueAdd, getSyncQueue,
        drainList, processOperation, saveTaskPut, hsrv, applyOnline]
    | ok v =>
      obtain ⟨nt, g'⟩ := v
      rw [syncPendingChanges, if_neg (by simp [createOfflineTask])]
      simp [createOfflineTask, addToSyncQueue, queueAdd, getSyncQueue,
        drainList, processOperation, saveTaskPut, hsrv, applyOnline]
  · intro u s0 g tid p t0 tu ts rq hfind hno
    have htid : t0._id = tid := by simpa using List.find?_some hfind
    have hu0 : t0.userId = u := by
      have hmem := List.mem_of_find?_eq_some hfind
      simpa using (List.mem_filter.mp hmem).2
    have hupdid : ({ applyPatch t0 p with updatedAt := tu } : Task)._id = tid := by
      simp [applyPatch, htid]
    have huu : ({ applyPatch t0 p with updatedAt := tu } : Task).userId = u := by
      simp [applyPatch, hu0]
    have hc1 : (updateOfflineTask
        { isOnline := true, syncInProgress := false, userId := some u,
          store := s0, queue := [] } tid p tu rq).2
        = { isOnline := true, syncInProgress := false, userId := some u,
            store := storePut s0 { applyPatch t0 p with updatedAt := tu },
            queue := [{ type := .update, taskId := tid, data := p,
                        timestamp := tu, id := opKey .update tid rq }] } := by
      simp [updateOfflineTask, getOfflineTasks, hfind, addToSyncQueue, queueAdd]
    rw [hc1]
    have hfind2 : (getTasks
        (storePut s0 { applyPatch t0 p with updatedAt := tu }) u).find?
        (fun t => t._id = tid) = some { applyPatch t0 p with updatedAt := tu } := by
      rw [← hupdid]
      exact getTasks_storePut_find_self s0 _ u huu
    have hno2 : jsStartsWith
        ({ applyPatch t0 p with updatedAt := tu } : Task)._id "offline_" = false := by
      rw [hupdid, ← htid]
      exact hno
    cases hsrv : serverUpdate g u tid p ts with
    | error e =>
      rw [syncPendingChanges, if_neg (by simp)]
      simp [getSyncQueue, drainList, processOperation, saveTaskPut,
        getOfflineTasks, hfind2, hno2, hsrv, applyOnline]
    | ok v =>
      obtain ⟨ut, g'⟩ := v
      rw [syncPendingChanges, if_neg (by simp)]
      simp [getSyncQueue, drainList, processOperation, saveTaskPut,
        getOfflineTasks, hfind2, hno2, hsrv, applyOnline]
  · intro u s0 g tid td ts rq hno
    cases hsrv : serverDelete g u tid with
    | error e =>
      rw [syncPendingChanges, if_neg (by simp [deleteOfflineTask])]
      simp [deleteOfflineTask, addToSyncQueue, queueAdd, getSyncQueue,
        drainList, processOperation, hno, hsrv, applyOnline]
    | ok v =>
      obtain ⟨w, g'⟩ := v
      rw [syncPendingChanges, if_neg (by simp [deleteOfflineTask])]
      simp [deleteOfflineTask, addToSyncQueue, queueAdd, getSyncQueue,
        drainList, processOperation, hno, hsrv, applyOnline]

/-- C1, witness: the three single-mutation equivalences instantiated at
concrete inputs (a create from an empty session; an update and a delete of
the confirmed task a1). -/
theorem C1_single_mutation_replay_witness :
    (syncPendingChanges
      ((createOfflineTask
        { isOnline := true, syncInProgress := false, userId := some "u1",
          store := [], queue := [] } demoPatch 100 "r1" "q1").1)
      demoGateway 200).2.1
      = applyOnline demoGateway "u1" (.create demoPatch) 200 ∧
    (syncPendingChanges
      ((updateOfflineTask
        { isOnline := true, syncInProgress := false, userId := some "u1",
          store := [demoTaskA], queue := [] } "a1" demoPatch 7 "q").2)
      demoGateway 200).2.1
      = applyOnline demoGateway "u1" (.update "a1" demoPatch) 200 ∧
    (syncPendingChanges
      (deleteOfflineTask
        { isOnline := true, syncInProgress := false, userId := some "u1",
          store := [demoTaskA], queue := [] } "a1" 8 "q")
      demoGateway 200).2.1
      = applyOnline demoGateway "u1" (.delete "a1") 200 :=
  ⟨C1_single_mutation_replay.1 "u1" demoPatch [] demoGateway 100 200 "r1" "q1",
   C1_single_mutation_replay.2.1 "u1" [demoTaskA] demoGateway "a1" demoPatch
     demoTaskA 7 200 "q" (by decide) (by decide),
   C1_single_mutation_replay.2.2 "u1" [demoTaskA] demoGateway "a1" 8 200 "q"
     (by decide)⟩

/-- C2: the code does not implement the cancellation the spec requires.
For a task created and then deleted while offline, the drain dispatches
the queued CREATE to the gateway (one network call for that task) and the
server keeps the re-created record; the client-side save of the
`{success, task}` response envelope then throws (no `_id` key), so the
CREATE also stays queued — a second pass re-creates the task, duplicating
it on the server — while the local store stays empty; the queued DELETE is
skipped because its target carries the `offline_` namespace and is
dequeued without a network call. -/
theorem C2_create_then_delete_residual :
    demoDrained.2.2 = 1 ∧
    demoDrained.2.1.tasks =
      [{ _id := "srv0", userId := "u1", title := "Buy milk", completed := false,
         createdAt := 200, updatedAt := 200, isOffline := false }] ∧
    demoDrained.1.store = [] ∧
    demoDrained.1.queue =
      [{ type := .create, taskId := "offline_100_r1", data := demoPatch,
         timestamp := 100, id := "CREATE_offline_100_r1_q1" }] ∧
    (syncPendingChanges demoDrained.1 demoDrained.2.1 300).2.1.tasks.length = 2 := by
  decide

/-- C3, counterexample: getSyncQueue does not return enqueue order.
Enqueueing an UPDATE for task t1 and then a DELETE for the same task
returns the DELETE first, because IndexedDB getAll returns ascending key
order and the generated keys start with the operation type. -/
theorem C3_enqueue_order_counterexample :
    getSyncQueue (enqueueAll [] [demoUpdReq, demoDelReq])
      ≠ [demoUpdReq, demoDelReq].map reqItem ∧
    getSyncQueue (enqueueAll [] [demoUpdReq, demoDelReq])
      = [reqItem demoDelReq, reqItem demoUpdReq] := by
  decide

/-- C3, amended: getSyncQueue returns the queued operations (none lost, a
permutation of the enqueued items) in ascending order of their generated
string keys; that equals enqueue order exactly when the generated keys are
strictly increasing in enqueue order. -/
theorem C3_queue_key_order (rs : List EnqueueReq) :
    (getSyncQueue (enqueueAll [] rs)).Perm (rs.map reqItem) ∧
    (List.Pairwise (fun a b => keyLt (reqItem a).id (reqItem b).id = true) rs →
      getSyncQueue (enqueueAll [] rs) = rs.map reqItem) := by
  constructor
  · simpa [getSyncQueue] using enqueueAll_perm rs []
  · intro h
    simpa [getSyncQueue] using enqueueAll_fifo rs [] (by simp) h

/-- C3, witness: enqueueing the DELETE call first and the UPDATE call
second produces increasing keys, and the queue then is the enqueue order. -/
theorem C3_queue_key_order_witness :
    (getSyncQueue (enqueueAll [] [demoDelReq, demoUpdReq])).Perm
      ([demoDelReq, demoUpdReq].map reqItem) ∧
    getSyncQueue (enqueueAll [] [demoDelReq, demoUpdReq])
      = [demoDelReq, demoUpdReq].map reqItem :=
  ⟨(C3_queue_key_order [demoDelReq, demoUpdReq]).1,
   (C3_queue_key_order [demoDelReq, demoUpdReq]).2 (by decide)⟩

/-- The merge step of lines 369-383, as written over a task array,
implements last-write-wins: a server task matching a local task overwrites
the local copy exactly when the server updatedAt is strictly newer
(otherwise the local copy is kept); a server task absent locally is
inserted; a local task absent from the response is left untouched.  The
program never reaches this merge with an array (see C4). -/
theorem mergeServerTasks_last_write_wins :
    ∀ (u : String) (c : Client) (serverTasks : List Task),
    c.userId = some u →
    (∀ t ∈ c.store, t.userId = u) →
    (c.store.map fun t => t._id).Nodup →
    (serverTasks.map fun t => t._id).Nodup →
    (∀ s ∈ serverTasks, ∀ l ∈ c.store, l._id = s._id →
      (l.updatedAt < s.updatedAt →
        (mergeServerTasks c serverTasks).store.find? (fun y => y._id = s._id)
          = some s) ∧
      (¬ l.updatedAt < s.updatedAt →
        (mergeServerTasks c serverTasks).store.find? (fun y => y._id = s._id)
          = some l)) ∧
    (∀ s ∈ serverTasks, (∀ l ∈ c.store, ¬ l._id = s._id) →
      (mergeServerTasks c serverTasks).store.find? (fun y => y._id = s._id)
        = some s) ∧
    (∀ l ∈ c.store, (∀ s ∈ serverTasks, ¬ s._id = l._id) →
      (mergeServerTasks c serverTasks).store.find? (fun y => y._id = l._id)
        = some l) := by
  intro u c sT hu hall hndL hndS
  have hloc : getOfflineTasks c = c.store := by
    simp only [getOfflineTasks, hu, getTasks]
    exact List.filter_eq_self.mpr (fun t ht => by simpa using hall t ht)
  have hm : (mergeServerTasks c sT).store
      = ((sT.filter (fun s => ¬ c.store.any (fun l => l._id = s._id))
         ++ sT.filter (fun s =>
              match c.store.find? (fun l => l._id = s._id) with
              | some l => l.updatedAt < s.updatedAt
              | none => false)).foldl storePut c.store) := by
    simp only [mergeServerTasks, hloc]
  have hndN : ((sT.filter (fun s => ¬ c.store.any (fun l => l._id = s._id))).map
      (fun y => y._id)).Nodup :=
    List.Nodup.sublist ((List.filter_sublist sT).map _) hndS
  have hndU : ((sT.filter (fun s =>
      match c.store.find? (fun l => l._id = s._id) with
      | some l => l.updatedAt < s.updatedAt
      | none => false)).map (fun y => y._id)).Nodup :=
    List.Nodup.sublist ((List.filter_sublist sT).map _) hndS
  have hdisj : List.Disjoint
      ((sT.filter (fun s => ¬ c.store.any (fun l => l._id = s._id))).map
        (fun y => y._id))
      ((sT.filter (fun s =>
          match c.store.find? (fun l => l._id = s._id) with
          | some l => l.updatedAt < s.updatedAt
          | none => false)).map (fun y => y._id)) := by
    intro a haN haU
    rcases List.mem_map.mp haN with ⟨y, hyF, hya⟩
    rcases List.mem_map.mp haU with ⟨z, hzF, hza⟩
    rcases List.mem_filter.mp hyF with ⟨_, hyP⟩
    rcases List.mem_filter.mp hzF with ⟨_, hzP⟩
    rcases hfz : c.store.find? (fun l => l._id = z._id) with _ | l'
    · rw [hfz] at hzP
      simp at hzP
    · have hl' : l' ∈ c.store := List.mem_of_find?_eq_some hfz
      have hl'id : l'._id = z._id := by simpa using List.find?_some hfz
      have hyno : ¬ (c.store.any (fun l => l._id = y._id) = true) := by
        simpa using hyP
      apply hyno
      refine List.any_eq_true.mpr ⟨l', hl', ?_⟩
      simp [hl'id, hza, hya]
  have hndC : (((sT.filter (fun s => ¬ c.store.any (fun l => l._id = s._id)))
      ++ (sT.filter (fun s =>
          match c.store.find? (fun l => l._id = s._id) with
          | some l => l.updatedAt < s.updatedAt
          | none => false))).map (fun y => y._id)).Nodup := by
    rw [List.map_append]
    exact List.Nodup.append hndN hndU hdisj
  rw [hm]
  refine ⟨?_, ?_, ?_⟩
  · intro s hs l hl hid
    have hfl : c.store.find? (fun y => y._id = s._id) = some l := by
      rw [← hid]
      exact find?_of_nodup_mem c.store l hndL hl
    have hany : c.store.any (fun y => y._id = s._id) = true :=
      List.any_eq_true.mpr ⟨l, hl, by simpa using hid⟩
    constructor
    · intro hlt
      have hsU : s ∈ sT.filter (fun s =>
          match c.store.find? (fun l => l._id = s._id) with
          | some l => l.updatedAt < s.updatedAt
          | none => false) := by
        refine List.mem_filter.mpr ⟨hs, ?_⟩
        simp [hfl, hlt]
      exact foldl_storePut_find?_mem _ c.store s hndC
        (List.mem_append.mpr (Or.inr hsU))
    · intro hnlt
      have hnone : ∀ y ∈ ((sT.filter (fun s => ¬ c.store.any
            (fun l => l._id = s._id)))
          ++ (sT.filter (fun s =>
              match c.store.find? (fun l => l._id = s._id) with
              | some l => l.updatedAt < s.updatedAt
              | none => false))), ¬ y._id = s._id := by
        intro y hy hyid
        rcases List.mem_append.mp hy with hyN | hyU
        · rcases List.mem_filter.mp hyN with ⟨_, hyP⟩
          have hyno : ¬ (c.store.any (fun l => l._id = y._id) = true) := by
            simpa using hyP
          apply hyno
          simp only [hyid]
          exact hany
        · rcases List.mem_filter.mp hyU with ⟨hyT, hyP⟩
          have hys : y = s := nodup_id_inj sT hndS y s hyT hs hyid
          rw [hys] at hyP
          exact hnlt (by simpa [hfl] using hyP)
      rw [foldl_storePut_find?_not_mem _ c.store s._id hnone]
      exact hfl
  · intro s hs hnolocal
    have hno : ¬ (c.store.any (fun l => l._id = s._id) = true) := by
      intro h
      rcases List.any_eq_true.mp h with ⟨l, hl, hp⟩
      exact hnolocal l hl (by simpa using hp)
    have hsN : s ∈ sT.filter (fun s => ¬ c.store.any (fun l => l._id = s._id)) :=
      List.mem_filter.mpr ⟨hs, by simpa using hno⟩
    exact foldl_storePut_find?_mem _ c.store s hndC
      (List.mem_append.mpr (Or.inl hsN))
  · intro l hl hnoserver
    have hnone : ∀ y ∈ ((sT.filter (fun s => ¬ c.store.any
          (fun l => l._id = s._id)))
        ++ (sT.filter (fun s =>
            match c.store.find? (fun l => l._id = s._id) with
            | some l => l.updatedAt < s.updatedAt
            | none => false))), ¬ y._id = l._id := by
      intro y hy
      rcases List.mem_append.mp hy with hyN | hyU
      · exact hnoserver y (List.mem_filter.mp hyN).1
      · exact hnoserver y (List.mem_filter.mp hyU).1
    rw [foldl_storePut_find?_not_mem _ c.store l._id hnone]
    exact find?_of_nodup_mem c.store l hndL hl

/-- C4: the claimed reconciliation never happens in the program.  In
syncFromServer the value in `serverTasks` is the `{success, tasks,
pagination}` response envelope, the first array-method call on it throws a
TypeError, and the catch leaves the client unchanged — for every client
and gateway state.  In particular a reachable server holding a strictly
newer copy of local task a1 does not overwrite the local copy. -/
theorem C4_reconciliation_never_applied :
    (∀ (c : Client) (g : Gateway), syncFromServer c g = c) ∧
    (∀ (c : Client) (env : ListEnvelope),
      syncFromServerBody c (.obj env)
        = .error "TypeError: serverTasks.filter is not a function") ∧
    (syncFromServer demoHolderClient
        { tasks := [demoTaskANewer], nextId := 1, reachable := true }).store.find?
      (fun y => y._id = "a1") = some demoTaskA :=
  ⟨fun c g => syncFromServer_leaves_client c g,
   fun c env => rfl,
   by decide⟩

/-- C5, counterexample: a not-found answer on a queued UPDATE does not drop
the operation.  The gateway answers 404 (the task is unknown there), and
after the drain the operation is still in the queue for retry. -/
theorem C5_not_found_counterexample :
    serverUpdate demoGateway "u1" "a1"
      { title := some "y", completed := none } 300 = .error .notFound ∧
    demoStaleDrained.1.queue = demoStaleClient.queue ∧
    demoStaleClient.queue.length = 1 ∧
    demoStaleDrained.2.2 = 1 := by
  decide

/-- C6, counterexample: the drain is not aborted when the failure is due to
being offline.  With an unreachable gateway and two queued deletes, both
operations are dispatched (two attempts, not one), both stay queued, and
the synchronizer online flag is untouched by the drain (no transition to
Offline from inside the pass). -/
theorem C6_no_abort_counterexample :
    demoOfflineDrain.2.2 = 2 ∧
    demoOfflineDrain.1.queue.length = 2 ∧
    demoOfflineDrain.1.isOnline = true := by
  decide

/-- C7: mutual exclusion of sync passes.  A call of syncPendingChanges
while a pass is in progress, or while offline, or with no user id, returns
with the client, the queue, the store and the server unchanged and makes no
gateway dispatch; and whenever a pass actually runs, the in-progress flag
is false again at its end (the flag is reset in the `finally`). -/
theorem C7_sync_mutual_exclusion :
    ∀ (c : Client) (g : Gateway) (now : Nat),
    ((¬ c.isOnline ∨ c.syncInProgress ∨ c.userId = none) →
      syncPendingChanges c g now = (c, g, 0)) ∧
    (c.isOnline = true → c.syncInProgress = false → c.userId ≠ none →
      (syncPendingChanges c g now).1.syncInProgress = false) := by
  intro c g now
  constructor
  · intro h
    rw [syncPendingChanges, if_pos h]
  · intro h1 h2 h3
    have hng : ¬ (¬ c.isOnline ∨ c.syncInProgress ∨ c.userId = none) := by
      simp [h1, h2, h3]
    rw [syncPendingChanges, if_neg hng]

/-- C7, witness: instantiation at a blocked client (offline) and at a
runnable client. -/
theorem C7_sync_mutual_exclusion_witness :
    syncPendingChanges
      { isOnline := false, syncInProgress := false, userId := some "u1",
        store := [], queue := [] } demoGateway 7
      = ({ isOnline := false, syncInProgress := false, userId := some "u1",
            store := [], queue := [] }, demoGateway, 0) ∧
    (syncPendingChanges demoClient demoGateway 7).1.syncInProgress = false :=
  ⟨(C7_sync_mutual_exclusion _ demoGateway 7).1 (by simp),
   (C7_sync_mutual_exclusion demoClient demoGateway 7).2 rfl rfl (by simp [demoClient])⟩

/-- C8: in the localStorage degraded mode the enqueue does not complete.
StorageService.addToSyncQueue calls the async getSyncQueue without await,
so `queue` is a pending Promise and `queue.push` throws a TypeError before
anything is persisted; likewise removeFromSyncQueue with `queue.filter`.
The persisted queue is left exactly as it was, the new operation is not
appended. -/
theorem C8_degraded_enqueue_throws :
    ∀ (stored : List SyncItem) (ty : OpType) (taskId : String) (p : TaskPatch)
      (now : Nat) (rand : String) (id : String),
    lsAddToSyncQueue stored ty taskId p now rand
      = (.error "TypeError: queue.push is not a function", stored) ∧
    lsRemoveFromSyncQueue stored id
      = (.error "TypeError: queue.filter is not a function", stored) := by
  intro stored ty taskId p now rand id
  exact ⟨rfl, rfl⟩

/-- C9: put idempotence in both storage paths.  Saving the same task record
twice yields the same store as saving it once, in the IndexedDB path and in
the localStorage fallback path; and when the store has one record per
identifier, it still does after a save, with the saved identifier occurring
exactly once. -/
theorem C9_saveTask_idempotent :
    ∀ (s a : List Task) (t : Task),
    storePut (storePut s t) t = storePut s t ∧
    lsSaveTask (lsSaveTask a t) t = lsSaveTask a t ∧
    ((s.map fun x => x._id).Nodup →
      ((storePut s t).map fun x => x._id).Nodup ∧
      ((storePut s t).filter (fun x => x._id = t._id)).length = 1) :=
  fun s a t =>
    ⟨storePut_idem s t, lsSaveTask_idem a t,
     fun h => ⟨storePut_nodup s t h, storePut_count_one s t h⟩⟩

/-- C9, witness: instantiation at a one-record store and a fresh record. -/
theorem C9_saveTask_idempotent_witness :
    storePut (storePut [demoTaskA] demoTaskA) demoTaskA
      = storePut [demoTaskA] demoTaskA ∧
    lsSaveTask (lsSaveTask [] demoTaskA) demoTaskA
      = lsSaveTask [] demoTaskA ∧
    (((storePut [demoTaskA] demoTaskA).map fun x => x._id).Nodup ∧
      ((storePut [demoTaskA] demoTaskA).filter
        (fun x => x._id = demoTaskA._id)).length = 1) :=
  ⟨(C9_saveTask_idempotent [demoTaskA] [] demoTaskA).1,
   (C9_saveTask_idempotent [demoTaskA] [] demoTaskA).2.1,
   (C9_saveTask_idempotent [demoTaskA] [] demoTaskA).2.2 (by decide)⟩

/-- C10: updating a task id that is not in the local store throws the
`Task not found` error and leaves both the task store and the operation
queue unchanged; in particular no UPDATE operation is enqueued. -/
theorem C10_update_missing_throws :
    ∀ (c : Client) (taskId : String) (updates : TaskPatch) (now : Nat)
      (rq : String),
    (∀ t ∈ c.store, ¬ t._id = taskId) →
    updateOfflineTask c taskId updates now rq = (.error "Task not found", c) := by
  intro c taskId updates now rq h
  have hfind : (getOfflineTasks c).find? (fun t => t._id = taskId) = none := by
    rcases hu : c.userId with _ | u
    · simp [getOfflineTasks, hu]
    · simp only [getOfflineTasks, hu]
      refine List.find?_eq_none.mpr ?_
      intro t ht
      have htm : t ∈ c.store := (List.mem_filter.mp ht).1
      simpa using h t htm
  simp [updateOfflineTask, hfind]

/-- C5, amended: the synchronizer treats a not-found answer on Update or
Delete like every other gateway error — the operation is left in the queue
for the next pass rather than dropped, and the server is unchanged by the
failed dispatch. -/
theorem C5_gateway_error_keeps_operation :
    ∀ (u : String) (s0 : List Task) (g : Gateway) (op : SyncItem) (now : Nat)
      (e : GatewayError) (t0 : Task),
    (op.type = OpType.update →
      (getTasks s0 u).find? (fun t => t._id = op.taskId) = some t0 →
      jsStartsWith t0._id "offline_" = false →
      serverUpdate g u op.taskId op.data now = .error e →
      (syncPendingChanges
        { isOnline := true, syncInProgress := false, userId := some u,
          store := s0, queue := [op] } g now).1.queue = [op] ∧
      (syncPendingChanges
        { isOnline := true, syncInProgress := false, userId := some u,
          store := s0, queue := [op] } g now).2.1 = g) ∧
    (op.type = OpType.delete →
      jsStartsWith op.taskId "offline_" = false →
      serverDelete g u op.taskId = .error e →
      (syncPendingChanges
        { isOnline := true, syncInProgress := false, userId := some u,
          store := s0, queue := [op] } g now).1.queue = [op] ∧
      (syncPendingChanges
        { isOnline := true, syncInProgress := false, userId := some u,
          store := s0, queue := [op] } g now).2.1 = g) := by
  intro u s0 g op now e t0
  constructor
  · intro hty hfind hno hsrv
    have hproc : processOperation
        { isOnline := true, syncInProgress := true, userId := some u,
          store := s0, queue := [op] } g op now
        = (.error (.gateway e),
           { isOnline := true, syncInProgress := true, userId := some u,
             store := s0, queue := [op] }, g, 1) := by
      simp [processOperation, hty, getOfflineTasks, hfind, hno, hsrv]
    rw [syncPendingChanges, if_neg (by simp)]
    simp only [getSyncQueue, drainList, hproc]
    exact ⟨by simp [syncFromServer_leaves_client], trivial⟩
  · intro hty hno hsrv
    have hproc : processOperation
        { isOnline := true, syncInProgress := true, userId := some u,
          store := s0, queue := [op] } g op now
        = (.error (.gateway e),
           { isOnline := true, syncInProgress := true, userId := some u,
             store := s0, queue := [op] }, g, 1) := by
      simp [processOperation, hty, hno, hsrv]
    rw [syncPendingChanges, if_neg (by simp)]
    simp only [getSyncQueue, drainList, hproc]
    exact ⟨by simp [syncFromServer_leaves_client], trivial⟩

/-- C5, witness: the stale UPDATE of task a1 (present locally, unknown to
the server, which answers not-found) stays queued and the server is
unchanged. -/
theorem C5_gateway_error_keeps_operation_witness :
    (syncPendingChanges
      { isOnline := true, syncInProgress := false, userId := some "u1",
        store := [demoTaskA], queue := [demoStaleItem] } demoGateway 300).1.queue
      = [demoStaleItem] ∧
    (syncPendingChanges
      { isOnline := true, syncInProgress := false, userId := some "u1",
        store := [demoTaskA], queue := [demoStaleItem] } demoGateway 300).2.1
      = demoGateway :=
  (C5_gateway_error_keeps_operation "u1" [demoTaskA] demoGateway demoStaleItem
    300 .notFound demoTaskA).1 rfl (by decide) (by decide) (by decide)

/-- C6, amended: a dispatch failure leaves the operation queued and the
drain continues with the next operation, for offline (network) failures as
much as for any other failure: with an unreachable gateway every
gateway-dispatching operation in the queue is attempted, all of them stay
queued, the local store and the server are unchanged, and the online flag
is untouched — the transition to Offline is performed by the connectivity
listener, not from inside the drain. -/
theorem C6_offline_failure_isolation :
    ∀ (u : String) (s0 : List Task) (ops : List SyncItem) (g : Gateway)
      (now : Nat),
    g.reachable = false →
    (∀ op ∈ ops, op.type = OpType.delete ∧
      jsStartsWith op.taskId "offline_" = false) →
    syncPendingChanges
      { isOnline := true, syncInProgress := false, userId := some u,
        store := s0, queue := ops } g now
      = ({ isOnline := true, syncInProgress := false, userId := some u,
           store := s0, queue := ops }, g, ops.length) := by
  intro u s0 ops g now hg hops
  rw [syncPendingChanges, if_neg (by simp)]
  simp only [getSyncQueue]
  rw [drainList_unreachable ops _ g now hg hops,
    syncFromServer_unreachable _ g hg]

/-- C6, witness: both queued deletes are attempted against the unreachable
gateway and everything is retained unchanged. -/
theorem C6_offline_failure_isolation_witness :
    demoUnreachable.reachable = false ∧
    syncPendingChanges
      { isOnline := true, syncInProgress := false, userId := some "u1",
        store := [], queue := [demoDelItemA, demoDelItemB] } demoUnreachable 300
      = ({ isOnline := true, syncInProgress := false, userId := some "u1",
           store := [], queue := [demoDelItemA, demoDelItemB] },
         demoUnreachable, 2) :=
  ⟨rfl, C6_offline_failure_isolation "u1" [] [demoDelItemA, demoDelItemB]
    demoUnreachable 300 rfl (by decide)⟩

/-- C10, witness: instantiation at a store holding only task a1 and a
lookup of a different id. -/
theorem C10_update_missing_throws_witness :
    updateOfflineTask
      { isOnline := true, syncInProgress := false, userId := some "u1",
        store := [demoTaskA], queue := [] } "zzz" demoPatch 9 "r"
      = (.error "Task not found",
         { isOnline := true, syncInProgress := false, userId := some "u1",
           store := [demoTaskA], queue := [] }) :=
  C10_update_missing_throws _ "zzz" demoPatch 9 "r" (by decide)

end TodoSync
